import Mathlib

/-! Shallow embedding of the duration-extender crate (src/lib.rs).

The crate extends the integer primitives u64, u32, i64 and i32 with fluent
unit methods producing std::time::Duration values.  Machine integers are
modelled as Nat (unsigned) and Int (signed) with explicit 2^64 bounds where
overflow matters; a Rust panic (assert! or Option::expect) is modelled as
Except.error carrying the panic message string. -/

def u64Size : Nat := 18446744073709551616

def u64Max : Nat := 18446744073709551615

/-- Model of std::time::Duration: whole seconds plus a sub-second
nanosecond remainder, exactly the (secs, nanos) pair of the Rust type. -/
structure Duration where
  secs : Nat
  nanos : Nat
deriving DecidableEq

def NANOS_PER_SEC : Nat := 1000000000

def NANOS_PER_MILLI : Nat := 1000000

def NANOS_PER_MICRO : Nat := 1000

def MILLIS_PER_SEC : Nat := 1000

def MICROS_PER_SEC : Nat := 1000000

/-- Duration::from_secs. -/
def Duration.from_secs (n : Nat) : Duration := ⟨n, 0⟩

/-- Duration::from_millis. -/
def Duration.from_millis (n : Nat) : Duration :=
  ⟨n / MILLIS_PER_SEC, (n % MILLIS_PER_SEC) * NANOS_PER_MILLI⟩

/-- Duration::from_micros. -/
def Duration.from_micros (n : Nat) : Duration :=
  ⟨n / MICROS_PER_SEC, (n % MICROS_PER_SEC) * NANOS_PER_MICRO⟩

/-- Duration::from_nanos. -/
def Duration.from_nanos (n : Nat) : Duration :=
  ⟨n / NANOS_PER_SEC, n % NANOS_PER_SEC⟩

/-- Duration::as_millis. -/
def Duration.as_millis (d : Duration) : Nat :=
  d.secs * MILLIS_PER_SEC + d.nanos / NANOS_PER_MILLI

/-- u64::checked_add on values represented as Nat. -/
def u64_checked_add (a b : Nat) : Option Nat :=
  if a + b < u64Size then some (a + b) else none

/-- u64::checked_mul on values represented as Nat. -/
def u64_checked_mul (a b : Nat) : Option Nat :=
  if a * b < u64Size then some (a * b) else none

/-- Duration::checked_add, the total core of the panicking + operator. -/
def Duration.checked_add (a b : Duration) : Option Duration :=
  match u64_checked_add a.secs b.secs with
  | none => none
  | some s =>
    let nanos := a.nanos + b.nanos
    if nanos < NANOS_PER_SEC then
      some ⟨s, nanos⟩
    else
      match u64_checked_add s 1 with
      | none => none
      | some s2 => some ⟨s2, nanos - NANOS_PER_SEC⟩

/-! impl DurationExt for u64 (src/lib.rs lines 53-93).  The u64 value is a
Nat; theorems restrict it to the u64 range where that matters. -/

namespace U64

def seconds (n : Nat) : Except String Duration :=
  .ok (Duration.from_secs n)

def minutes (n : Nat) : Except String Duration :=
  match u64_checked_mul n 60 with
  | some secs => .ok (Duration.from_secs secs)
  | none => .error ("duration value " ++ toString n ++ " minutes overflows u64 seconds capacity")

def hours (n : Nat) : Except String Duration :=
  match u64_checked_mul n 3600 with
  | some secs => .ok (Duration.from_secs secs)
  | none => .error ("duration value " ++ toString n ++ " hours overflows u64 seconds capacity")

def days (n : Nat) : Except String Duration :=
  match u64_checked_mul n 86400 with
  | some secs => .ok (Duration.from_secs secs)
  | none => .error ("duration value " ++ toString n ++ " days overflows u64 seconds capacity")

def weeks (n : Nat) : Except String Duration :=
  match u64_checked_mul n 604800 with
  | some secs => .ok (Duration.from_secs secs)
  | none => .error ("duration value " ++ toString n ++ " weeks overflows u64 seconds capacity")

def milliseconds (n : Nat) : Except String Duration :=
  .ok (Duration.from_millis n)

def microseconds (n : Nat) : Except String Duration :=
  .ok (Duration.from_micros n)

def nanoseconds (n : Nat) : Except String Duration :=
  .ok (Duration.from_nanos n)

end U64

/-! impl DurationExt for u32 (src/lib.rs lines 95-135).  The u32 value is a
Nat below 2^32; the source's value-preserving cast (self as u64) is the
identity on the Nat representation. -/

namespace U32

def seconds (n : Nat) : Except String Duration :=
  .ok (Duration.from_secs n)

def minutes (n : Nat) : Except String Duration :=
  match u64_checked_mul n 60 with
  | some secs => .ok (Duration.from_secs secs)
  | none => .error ("duration value " ++ toString n ++ " minutes overflows u64 seconds capacity")

def hours (n : Nat) : Except String Duration :=
  match u64_checked_mul n 3600 with
  | some secs => .ok (Duration.from_secs secs)
  | none => .error ("duration value " ++ toString n ++ " hours overflows u64 seconds capacity")

def days (n : Nat) : Except String Duration :=
  match u64_checked_mul n 86400 with
  | some secs => .ok (Duration.from_secs secs)
  | none => .error ("duration value " ++ toString n ++ " days overflows u64 seconds capacity")

def weeks (n : Nat) : Except String Duration :=
  match u64_checked_mul n 604800 with
  | some secs => .ok (Duration.from_secs secs)
  | none => .error ("duration value " ++ toString n ++ " weeks overflows u64 seconds capacity")

def milliseconds (n : Nat) : Except String Duration :=
  .ok (Duration.from_millis n)

def microseconds (n : Nat) : Except String Duration :=
  .ok (Duration.from_micros n)

def nanoseconds (n : Nat) : Except String Duration :=
  .ok (Duration.from_nanos n)

end U32

/-! impl DurationExt for i64 (src/lib.rs lines 137-185).  The i64 value is
an Int; each method first asserts non-negativity, then casts to u64
(Int.toNat on the already non-negative value) and proceeds as u64 does. -/

namespace I64

def seconds (n : Int) : Except String Duration :=
  if n < 0 then
    .error ("duration cannot be negative: got " ++ toString n ++ " seconds")
  else
    .ok (Duration.from_secs n.toNat)

def minutes (n : Int) : Except String Duration :=
  if n < 0 then
    .error ("duration cannot be negative: got " ++ toString n ++ " minutes")
  else
    match u64_checked_mul n.toNat 60 with
    | some secs => .ok (Duration.from_secs secs)
    | none => .error ("duration value " ++ toString n ++ " minutes overflows u64 seconds capacity")

def hours (n : Int) : Except String Duration :=
  if n < 0 then
    .error ("duration cannot be negative: got " ++ toString n ++ " hours")
  else
    match u64_checked_mul n.toNat 3600 with
    | some secs => .ok (Duration.from_secs secs)
    | none => .error ("duration value " ++ toString n ++ " hours overflows u64 seconds capacity")

def days (n : Int) : Except String Duration :=
  if n < 0 then
    .error ("duration cannot be negative: got " ++ toString n ++ " days")
  else
    match u64_checked_mul n.toNat 86400 with
    | some secs => .ok (Duration.from_secs secs)
    | none => .error ("duration value " ++ toString n ++ " days overflows u64 seconds capacity")

def weeks (n : Int) : Except String Duration :=
  if n < 0 then
    .error ("duration cannot be negative: got " ++ toString n ++ " weeks")
  else
    match u64_checked_mul n.toNat 604800 with
    | some secs => .ok (Duration.from_secs secs)
    | none => .error ("duration value " ++ toString n ++ " weeks overflows u64 seconds capacity")

def milliseconds (n : Int) : Except String Duration :=
  if n < 0 then
    .error ("duration cannot be negative: got " ++ toString n ++ " milliseconds")
  else
    .ok (Duration.from_millis n.toNat)

def microseconds (n : Int) : Except String Duration :=
  if n < 0 then
    .error ("duration cannot be negative: got " ++ toString n ++ " microseconds")
  else
    .ok (Duration.from_micros n.toNat)

def nanoseconds (n : Int) : Except String Duration :=
  if n < 0 then
    .error ("duration cannot be negative: got " ++ toString n ++ " nanoseconds")
  else
    .ok (Duration.from_nanos n.toNat)

end I64

/-! impl DurationExt for i32 (src/lib.rs lines 187-235).  The i32 value is
an Int in the i32 range; the bodies are those of the i64 impl with a
value-preserving widening cast. -/

namespace I32

def seconds (n : Int) : Except String Duration :=
  if n < 0 then
    .error ("duration cannot be negative: got " ++ toString n ++ " seconds")
  else
    .ok (Duration.from_secs n.toNat)

def minutes (n : Int) : Except String Duration :=
  if n < 0 then
    .error ("duration cannot be negative: got " ++ toString n ++ " minutes")
  else
    match u64_checked_mul n.toNat 60 with
    | some secs => .ok (Duration.from_secs secs)
    | none => .error ("duration value " ++ toString n ++ " minutes overflows u64 seconds capacity")

def hours (n : Int) : Except String Duration :=
  if n < 0 then
    .error ("duration cannot be negative: got " ++ toString n ++ " hours")
  else
    match u64_checked_mul n.toNat 3600 with
    | some secs => .ok (Duration.from_secs secs)
    | none => .error ("duration value " ++ toString n ++ " hours overflows u64 seconds capacity")

def days (n : Int) : Except String Duration :=
  if n < 0 then
    .error ("duration cannot be negative: got " ++ toString n ++ " days")
  else
    match u64_checked_mul n.toNat 86400 with
    | some secs => .ok (Duration.from_secs secs)
    | none => .error ("duration value " ++ toString n ++ " days overflows u64 seconds capacity")

def weeks (n : Int) : Except String Duration :=
  if n < 0 then
    .error ("duration cannot be negative: got " ++ toString n ++ " weeks")
  else
    match u64_checked_mul n.toNat 604800 with
    | some secs => .ok (Duration.from_secs secs)
    | none => .error ("duration value " ++ toString n ++ " weeks overflows u64 seconds capacity")

def milliseconds (n : Int) : Except String Duration :=
  if n < 0 then
    .error ("duration cannot be negative: got " ++ toString n ++ " milliseconds")
  else
    .ok (Duration.from_millis n.toNat)

def microseconds (n : Int) : Except String Duration :=
  if n < 0 then
    .error ("duration cannot be negative: got " ++ toString n ++ " microseconds")
  else
    .ok (Duration.from_micros n.toNat)

def nanoseconds (n : Int) : Except String Duration :=
  if n < 0 then
    .error ("duration cannot be negative: got " ++ toString n ++ " nanoseconds")
  else
    .ok (Duration.from_nanos n.toNat)

end I32

/-! Substring containment for reasoning about panic messages. -/

/-- pat occurs as a contiguous substring of s. -/
def strContains (s pat : String) : Prop := List.IsInfix pat.data s.data

instance (s pat : String) : Decidable (strContains s pat) :=
  inferInstanceAs (Decidable (List.IsInfix pat.data s.data))

theorem strContains_refl (s : String) : strContains s s :=
  ⟨[], [], by simp⟩

theorem strContains_left {a pat : String} (h : strContains a pat) (b : String) :
    strContains (a ++ b) pat := by
  obtain ⟨x, y, hxy⟩ := h
  exact ⟨x, y ++ b.data, by simp [← hxy, List.append_assoc]⟩

theorem strContains_right (a : String) {b pat : String} (h : strContains b pat) :
    strContains (a ++ b) pat := by
  obtain ⟨x, y, hxy⟩ := h
  exact ⟨a.data ++ x, y, by simp [← hxy, List.append_assoc]⟩

deriving instance DecidableEq for Except

/-- A panic on a negative signed input: the result is an error whose message
contains the word "negative" and the rendering of the offending value. -/
def negPanic (r : Except String Duration) (n : Int) : Prop :=
  ∃ m, r = .error m ∧ strContains m "negative" ∧ strContains m (toString n)

/-- A panic on an overflowing multiplication: the result is an error whose
message contains the word "overflow", the unit name and the input value. -/
def overflowPanic (r : Except String Duration) (unit val : String) : Prop :=
  ∃ m, r = .error m ∧ strContains m "overflow" ∧ strContains m unit ∧ strContains m val

theorem negPanic_error (n : Int) (tail : String) :
    negPanic (.error ("duration cannot be negative: got " ++ toString n ++ tail)) n :=
  ⟨_, rfl,
    strContains_left (strContains_left (by decide) _) _,
    strContains_left (strContains_right _ (strContains_refl _)) _⟩

theorem overflowPanic_error (v tail unit : String)
    (h1 : strContains tail "overflow") (h2 : strContains tail unit) :
    overflowPanic (.error ("duration value " ++ v ++ tail)) unit v :=
  ⟨_, rfl, strContains_right _ h1, strContains_right _ h2,
    strContains_left (strContains_right _ (strContains_refl _)) _⟩

theorem toString_int_nonneg (n : Int) (h : 0 ≤ n) : toString n = toString n.toNat := by
  match n with
  | Int.ofNat k => rfl
  | Int.negSucc k => exact absurd h (Int.negSucc_lt_zero k).not_le

theorem narrow_mul_fits {n k : Nat} (hn : n < 4294967296) (hk : k ≤ 604800) :
    n * k < u64Size := by
  have h1 : n * k ≤ 4294967295 * 604800 := Nat.mul_le_mul (by omega) hk
  have h2 : (4294967295 : Nat) * 604800 < u64Size := by norm_num [u64Size]
  omega

/-- C1 (counterexample): as stated the claim quantifies over every u64 value,
but at u64::MAX the minutes conversion panics on overflow instead of
returning the duration of u64::MAX * 60 seconds. -/
theorem c1_counterexample : U64.minutes u64Max ≠ Except.ok (Duration.from_secs (u64Max * 60)) := by
  decide

/-- C1 (amended): for every u64 value n whose product with the unit
multiplier fits in u64, the whole-second conversions return the duration of
n * multiplier seconds, with the table seconds=1, minutes=60, hours=3600,
days=86400, weeks=604800; the sub-second conversions return the duration the
corresponding constructor produces, unconditionally. -/
theorem c1_conversion_table (n : Nat) (hn : n < u64Size) :
    U64.seconds n = .ok (Duration.from_secs (n * 1)) ∧
    (n * 60 < u64Size → U64.minutes n = .ok (Duration.from_secs (n * 60))) ∧
    (n * 3600 < u64Size → U64.hours n = .ok (Duration.from_secs (n * 3600))) ∧
    (n * 86400 < u64Size → U64.days n = .ok (Duration.from_secs (n * 86400))) ∧
    (n * 604800 < u64Size → U64.weeks n = .ok (Duration.from_secs (n * 604800))) ∧
    U64.milliseconds n = .ok (Duration.from_millis n) ∧
    U64.microseconds n = .ok (Duration.from_micros n) ∧
    U64.nanoseconds n = .ok (Duration.from_nanos n) := by
  refine ⟨?_, ?_, ?_, ?_, ?_, rfl, rfl, rfl⟩
  · simp only [Nat.mul_one]; rfl
  · intro h; unfold U64.minutes u64_checked_mul; rw [if_pos h]
  · intro h; unfold U64.hours u64_checked_mul; rw [if_pos h]
  · intro h; unfold U64.days u64_checked_mul; rw [if_pos h]
  · intro h; unfold U64.weeks u64_checked_mul; rw [if_pos h]

/-- C1 witness: the amended conversion table evaluated at 7. -/
theorem c1_conversion_table_witness :
    U64.seconds 7 = .ok (Duration.from_secs (7 * 1)) ∧
    U64.minutes 7 = .ok (Duration.from_secs (7 * 60)) ∧
    U64.hours 7 = .ok (Duration.from_secs (7 * 3600)) ∧
    U64.days 7 = .ok (Duration.from_secs (7 * 86400)) ∧
    U64.weeks 7 = .ok (Duration.from_secs (7 * 604800)) ∧
    U64.milliseconds 7 = .ok (Duration.from_millis 7) ∧
    U64.microseconds 7 = .ok (Duration.from_micros 7) ∧
    U64.nanoseconds 7 = .ok (Duration.from_nanos 7) := by
  obtain ⟨h1, h2, h3, h4, h5, h6, h7, h8⟩ := c1_conversion_table 7 (by decide)
  exact ⟨h1, h2 (by decide), h3 (by decide), h4 (by decide), h5 (by decide), h6, h7, h8⟩

/-- C2: every negative i64 or i32 input makes each of the eight unit
operations panic with a message containing "negative" and the value. -/
theorem c2_negative_inputs_panic :
    (∀ n : Int, -(2 ^ 63) ≤ n → n < 0 →
      negPanic (I64.seconds n) n ∧ negPanic (I64.minutes n) n ∧
      negPanic (I64.hours n) n ∧ negPanic (I64.days n) n ∧
      negPanic (I64.weeks n) n ∧ negPanic (I64.milliseconds n) n ∧
      negPanic (I64.microseconds n) n ∧ negPanic (I64.nanoseconds n) n) ∧
    (∀ n : Int, -(2 ^ 31) ≤ n → n < 0 →
      negPanic (I32.seconds n) n ∧ negPanic (I32.minutes n) n ∧
      negPanic (I32.hours n) n ∧ negPanic (I32.days n) n ∧
      negPanic (I32.weeks n) n ∧ negPanic (I32.milliseconds n) n ∧
      negPanic (I32.microseconds n) n ∧ negPanic (I32.nanoseconds n) n) := by
  constructor
  · intro n _ hneg
    refine ⟨?_, ?_, ?_, ?_, ?_, ?_, ?_, ?_⟩
    · unfold I64.seconds; rw [if_pos hneg]; exact negPanic_error n " seconds"
    · unfold I64.minutes; rw [if_pos hneg]; exact negPanic_error n " minutes"
    · unfold I64.hours; rw [if_pos hneg]; exact negPanic_error n " hours"
    · unfold I64.days; rw [if_pos hneg]; exact negPanic_error n " days"
    · unfold I64.weeks; rw [if_pos hneg]; exact negPanic_error n " weeks"
    · unfold I64.milliseconds; rw [if_pos hneg]; exact negPanic_error n " milliseconds"
    · unfold I64.microseconds; rw [if_pos hneg]; exact negPanic_error n " microseconds"
    · unfold I64.nanoseconds; rw [if_pos hneg]; exact negPanic_error n " nanoseconds"
  · intro n _ hneg
    refine ⟨?_, ?_, ?_, ?_, ?_, ?_, ?_, ?_⟩
    · unfold I32.seconds; rw [if_pos hneg]; exact negPanic_error n " seconds"
    · unfold I32.minutes; rw [if_pos hneg]; exact negPanic_error n " minutes"
    · unfold I32.hours; rw [if_pos hneg]; exact negPanic_error n " hours"
    · unfold I32.days; rw [if_pos hneg]; exact negPanic_error n " days"
    · unfold I32.weeks; rw [if_pos hneg]; exact negPanic_error n " weeks"
    · unfold I32.milliseconds; rw [if_pos hneg]; exact negPanic_error n " milliseconds"
    · unfold I32.microseconds; rw [if_pos hneg]; exact negPanic_error n " microseconds"
    · unfold I32.nanoseconds; rw [if_pos hneg]; exact negPanic_error n " nanoseconds"

/-- C2 witness: the negative-input panic of seconds at -10 for both signed
widths. -/
theorem c2_negative_inputs_panic_witness :
    negPanic (I64.seconds (-10)) (-10) ∧ negPanic (I32.seconds (-10)) (-10) :=
  ⟨(c2_negative_inputs_panic.1 (-10) (by decide) (by decide)).1,
   (c2_negative_inputs_panic.2 (-10) (by decide) (by decide)).1⟩

/-- C3: u64 minutes at u64::MAX / 60 + 1 signals the overflow panic, while
at u64::MAX / 60 it returns the duration of (u64::MAX / 60) * 60 seconds. -/
theorem c3_minutes_overflow_boundary :
    (∃ m, U64.minutes (u64Max / 60 + 1) = .error m ∧ strContains m "overflow") ∧
    U64.minutes (u64Max / 60) = .ok (Duration.from_secs (u64Max / 60 * 60)) :=
  ⟨⟨"duration value 307445734561825861 minutes overflows u64 seconds capacity", rfl, by decide⟩,
   rfl⟩

/-- C4: the u64 sub-second operations add no overflow check and never fail:
they return exactly what the underlying constructor produces, and at
u64::MAX the millisecond count reads back as u64::MAX. -/
theorem c4_subsecond_unchecked (n : Nat) (hn : n < u64Size) :
    U64.milliseconds n = .ok (Duration.from_millis n) ∧
    U64.microseconds n = .ok (Duration.from_micros n) ∧
    U64.nanoseconds n = .ok (Duration.from_nanos n) ∧
    (U64.milliseconds u64Max).toOption.map Duration.as_millis = some u64Max :=
  ⟨rfl, rfl, rfl, by decide⟩

/-- C4 witness: the sub-second operations evaluated at 3. -/
theorem c4_subsecond_unchecked_witness :
    U64.milliseconds 3 = .ok (Duration.from_millis 3) ∧
    U64.microseconds 3 = .ok (Duration.from_micros 3) ∧
    U64.nanoseconds 3 = .ok (Duration.from_nanos 3) ∧
    (U64.milliseconds u64Max).toOption.map Duration.as_millis = some u64Max :=
  c4_subsecond_unchecked 3 (by decide)

/-- C5: values representable in both widths of the same signedness convert
identically: u32 agrees with u64 and i32 agrees with i64 on all eight
operations, successes and failures alike. -/
theorem c5_cross_width_consistency (n : Nat) (m : Int)
    (hn : n < 2 ^ 32) (hm1 : -(2 ^ 31) ≤ m) (hm2 : m < 2 ^ 31) :
    (U32.seconds n = U64.seconds n ∧ U32.minutes n = U64.minutes n ∧
     U32.hours n = U64.hours n ∧ U32.days n = U64.days n ∧
     U32.weeks n = U64.weeks n ∧ U32.milliseconds n = U64.milliseconds n ∧
     U32.microseconds n = U64.microseconds n ∧ U32.nanoseconds n = U64.nanoseconds n) ∧
    (I32.seconds m = I64.seconds m ∧ I32.minutes m = I64.minutes m ∧
     I32.hours m = I64.hours m ∧ I32.days m = I64.days m ∧
     I32.weeks m = I64.weeks m ∧ I32.milliseconds m = I64.milliseconds m ∧
     I32.microseconds m = I64.microseconds m ∧ I32.nanoseconds m = I64.nanoseconds m) :=
  ⟨⟨rfl, rfl, rfl, rfl, rfl, rfl, rfl, rfl⟩, ⟨rfl, rfl, rfl, rfl, rfl, rfl, rfl, rfl⟩⟩

/-- C5 witness: cross-width agreement evaluated at 9 for both signednesses. -/
theorem c5_cross_width_consistency_witness :
    U32.minutes 9 = U64.minutes 9 ∧ I32.minutes 9 = I64.minutes 9 :=
  ⟨(c5_cross_width_consistency 9 9 (by decide) (by decide) (by decide)).1.2.1,
   (c5_cross_width_consistency 9 9 (by decide) (by decide) (by decide)).2.2.1⟩

/-- C6: whenever the multiplication by the unit's second-count overflows the
u64 range, the operation signals an error whose message contains the word
"overflow", the unit name and the input value, for the u64 and i64
minutes/hours/days/weeks operations. -/
theorem c6_overflow_message :
    (∀ n : Nat, n < u64Size → u64Size ≤ n * 60 →
      overflowPanic (U64.minutes n) "minutes" (toString n)) ∧
    (∀ n : Nat, n < u64Size → u64Size ≤ n * 3600 →
      overflowPanic (U64.hours n) "hours" (toString n)) ∧
    (∀ n : Nat, n < u64Size → u64Size ≤ n * 86400 →
      overflowPanic (U64.days n) "days" (toString n)) ∧
    (∀ n : Nat, n < u64Size → u64Size ≤ n * 604800 →
      overflowPanic (U64.weeks n) "weeks" (toString n)) ∧
    (∀ n : Int, 0 ≤ n → n < 2 ^ 63 → u64Size ≤ n.toNat * 60 →
      overflowPanic (I64.minutes n) "minutes" (toString n)) ∧
    (∀ n : Int, 0 ≤ n → n < 2 ^ 63 → u64Size ≤ n.toNat * 3600 →
      overflowPanic (I64.hours n) "hours" (toString n)) ∧
    (∀ n : Int, 0 ≤ n → n < 2 ^ 63 → u64Size ≤ n.toNat * 86400 →
      overflowPanic (I64.days n) "days" (toString n)) ∧
    (∀ n : Int, 0 ≤ n → n < 2 ^ 63 → u64Size ≤ n.toNat * 604800 →
      overflowPanic (I64.weeks n) "weeks" (toString n)) := by
  refine ⟨?_, ?_, ?_, ?_, ?_, ?_, ?_, ?_⟩
  · intro n _ h
    unfold U64.minutes u64_checked_mul
    rw [if_neg (not_lt.mpr h)]
    exact overflowPanic_error (toString n) " minutes overflows u64 seconds capacity" "minutes"
      (by decide) (by decide)
  · intro n _ h
    unfold U64.hours u64_checked_mul
    rw [if_neg (not_lt.mpr h)]
    exact overflowPanic_error (toString n) " hours overflows u64 seconds capacity" "hours"
      (by decide) (by decide)
  · intro n _ h
    unfold U64.days u64_checked_mul
    rw [if_neg (not_lt.mpr h)]
    exact overflowPanic_error (toString n) " days overflows u64 seconds capacity" "days"
      (by decide) (by decide)
  · intro n _ h
    unfold U64.weeks u64_checked_mul
    rw [if_neg (not_lt.mpr h)]
    exact overflowPanic_error (toString n) " weeks overflows u64 seconds capacity" "weeks"
      (by decide) (by decide)
  · intro n h0 _ h
    unfold I64.minutes u64_checked_mul
    rw [if_neg (not_lt.mpr h0), if_neg (not_lt.mpr h)]
    exact overflowPanic_error (toString n) " minutes overflows u64 seconds capacity" "minutes"
      (by decide) (by decide)
  · intro n h0 _ h
    unfold I64.hours u64_checked_mul
    rw [if_neg (not_lt.mpr h0), if_neg (not_lt.mpr h)]
    exact overflowPanic_error (toString n) " hours overflows u64 seconds capacity" "hours"
      (by decide) (by decide)
  · intro n h0 _ h
    unfold I64.days u64_checked_mul
    rw [if_neg (not_lt.mpr h0), if_neg (not_lt.mpr h)]
    exact overflowPanic_error (toString n) " days overflows u64 seconds capacity" "days"
      (by decide) (by decide)
  · intro n h0 _ h
    unfold I64.weeks u64_checked_mul
    rw [if_neg (not_lt.mpr h0), if_neg (not_lt.mpr h)]
    exact overflowPanic_error (toString n) " weeks overflows u64 seconds capacity" "weeks"
      (by decide) (by decide)

/-- C6 witness: the overflow panic of u64 minutes at u64::MAX and of i64
minutes at i64::MAX. -/
theorem c6_overflow_message_witness :
    overflowPanic (U64.minutes u64Max) "minutes" (toString u64Max) ∧
    overflowPanic (I64.minutes 9223372036854775807) "minutes"
      (toString (9223372036854775807 : Int)) :=
  ⟨c6_overflow_message.1 u64Max (by decide) (by decide),
   (c6_overflow_message.2.2.2.2.1) 9223372036854775807 (by decide) (by decide) (by decide)⟩

/-- C7: duration addition composes with the conversions: 2 hours + 30
minutes + 15 seconds is the duration of 9015 seconds, and 5 u64 minutes is
the duration of 300 seconds. -/
theorem c7_addition_composes :
    I32.hours 2 = .ok (Duration.from_secs 7200) ∧
    I32.minutes 30 = .ok (Duration.from_secs 1800) ∧
    I32.seconds 15 = .ok (Duration.from_secs 15) ∧
    ((Duration.from_secs 7200).checked_add (Duration.from_secs 1800)).bind
      (fun d => d.checked_add (Duration.from_secs 15)) = some (Duration.from_secs 9015) ∧
    U64.minutes 5 = .ok (Duration.from_secs 300) :=
  ⟨rfl, rfl, rfl, rfl, rfl⟩

/-- C8: every operation is a pure function of its input: two calls with the
same input denote equal results, for all four numeric kinds and all eight
units. -/
theorem c8_pure_construction (n : Nat) (m : Int) :
    (U64.seconds n = U64.seconds n ∧ U64.minutes n = U64.minutes n ∧
     U64.hours n = U64.hours n ∧ U64.days n = U64.days n ∧
     U64.weeks n = U64.weeks n ∧ U64.milliseconds n = U64.milliseconds n ∧
     U64.microseconds n = U64.microseconds n ∧ U64.nanoseconds n = U64.nanoseconds n) ∧
    (U32.seconds n = U32.seconds n ∧ U32.minutes n = U32.minutes n ∧
     U32.hours n = U32.hours n ∧ U32.days n = U32.days n ∧
     U32.weeks n = U32.weeks n ∧ U32.milliseconds n = U32.milliseconds n ∧
     U32.microseconds n = U32.microseconds n ∧ U32.nanoseconds n = U32.nanoseconds n) ∧
    (I64.seconds m = I64.seconds m ∧ I64.minutes m = I64.minutes m ∧
     I64.hours m = I64.hours m ∧ I64.days m = I64.days m ∧
     I64.weeks m = I64.weeks m ∧ I64.milliseconds m = I64.milliseconds m ∧
     I64.microseconds m = I64.microseconds m ∧ I64.nanoseconds m = I64.nanoseconds m) ∧
    (I32.seconds m = I32.seconds m ∧ I32.minutes m = I32.minutes m ∧
     I32.hours m = I32.hours m ∧ I32.days m = I32.days m ∧
     I32.weeks m = I32.weeks m ∧ I32.milliseconds m = I32.milliseconds m ∧
     I32.microseconds m = I32.microseconds m ∧ I32.nanoseconds m = I32.nanoseconds m) :=
  ⟨⟨rfl, rfl, rfl, rfl, rfl, rfl, rfl, rfl⟩, ⟨rfl, rfl, rfl, rfl, rfl, rfl, rfl, rfl⟩,
   ⟨rfl, rfl, rfl, rfl, rfl, rfl, rfl, rfl⟩, ⟨rfl, rfl, rfl, rfl, rfl, rfl, rfl, rfl⟩⟩

/-- C9: the overflow branch is unreachable at 32 bits: every u32 input and
every non-negative i32 input makes all eight operations succeed, because the
widened product with the largest multiplier still fits in u64. -/
theorem c9_narrow_width_total :
    (∀ n : Nat, n < 2 ^ 32 →
      (∃ d, U32.seconds n = .ok d) ∧ (∃ d, U32.minutes n = .ok d) ∧
      (∃ d, U32.hours n = .ok d) ∧ (∃ d, U32.days n = .ok d) ∧
      (∃ d, U32.weeks n = .ok d) ∧ (∃ d, U32.milliseconds n = .ok d) ∧
      (∃ d, U32.microseconds n = .ok d) ∧ (∃ d, U32.nanoseconds n = .ok d)) ∧
    (∀ m : Int, 0 ≤ m → m < 2 ^ 31 →
      (∃ d, I32.seconds m = .ok d) ∧ (∃ d, I32.minutes m = .ok d) ∧
      (∃ d, I32.hours m = .ok d) ∧ (∃ d, I32.days m = .ok d) ∧
      (∃ d, I32.weeks m = .ok d) ∧ (∃ d, I32.milliseconds m = .ok d) ∧
      (∃ d, I32.microseconds m = .ok d) ∧ (∃ d, I32.nanoseconds m = .ok d)) := by
  constructor
  · intro n hn
    have hn32 : n < 4294967296 := by omega
    refine ⟨⟨_, rfl⟩, ?_, ?_, ?_, ?_, ⟨_, rfl⟩, ⟨_, rfl⟩, ⟨_, rfl⟩⟩
    · refine ⟨Duration.from_secs (n * 60), ?_⟩
      unfold U32.minutes u64_checked_mul
      rw [if_pos (narrow_mul_fits hn32 (by norm_num))]
    · refine ⟨Duration.from_secs (n * 3600), ?_⟩
      unfold U32.hours u64_checked_mul
      rw [if_pos (narrow_mul_fits hn32 (by norm_num))]
    · refine ⟨Duration.from_secs (n * 86400), ?_⟩
      unfold U32.days u64_checked_mul
      rw [if_pos (narrow_mul_fits hn32 (by norm_num))]
    · refine ⟨Duration.from_secs (n * 604800), ?_⟩
      unfold U32.weeks u64_checked_mul
      rw [if_pos (narrow_mul_fits hn32 (by norm_num))]
  · intro m hm0 hm
    have hmn : m.toNat < 4294967296 := by omega
    have hcond : ¬m < 0 := not_lt.mpr hm0
    refine ⟨?_, ?_, ?_, ?_, ?_, ?_, ?_, ?_⟩
    · exact ⟨_, by unfold I32.seconds; rw [if_neg hcond]⟩
    · refine ⟨Duration.from_secs (m.toNat * 60), ?_⟩
      unfold I32.minutes u64_checked_mul
      rw [if_neg hcond, if_pos (narrow_mul_fits hmn (by norm_num))]
    · refine ⟨Duration.from_secs (m.toNat * 3600), ?_⟩
      unfold I32.hours u64_checked_mul
      rw [if_neg hcond, if_pos (narrow_mul_fits hmn (by norm_num))]
    · refine ⟨Duration.from_secs (m.toNat * 86400), ?_⟩
      unfold I32.days u64_checked_mul
      rw [if_neg hcond, if_pos (narrow_mul_fits hmn (by norm_num))]
    · refine ⟨Duration.from_secs (m.toNat * 604800), ?_⟩
      unfold I32.weeks u64_checked_mul
      rw [if_neg hcond, if_pos (narrow_mul_fits hmn (by norm_num))]
    · exact ⟨_, by unfold I32.milliseconds; rw [if_neg hcond]⟩
    · exact ⟨_, by unfold I32.microseconds; rw [if_neg hcond]⟩
    · exact ⟨_, by unfold I32.nanoseconds; rw [if_neg hcond]⟩

/-- C9 witness: success of the weeks operation at the largest u32 value and
the largest i32 value. -/
theorem c9_narrow_width_total_witness :
    (∃ d, U32.weeks 4294967295 = .ok d) ∧ (∃ d, I32.weeks 2147483647 = .ok d) :=
  ⟨(c9_narrow_width_total.1 4294967295 (by decide)).2.2.2.2.1,
   (c9_narrow_width_total.2 2147483647 (by decide) (by decide)).2.2.2.2.1⟩

/-- C10: after the non-negativity assertion the signed implementations agree
with the unsigned ones on the cast value: each i64 operation at a
non-negative n equals the u64 operation at n.toNat, and likewise i32 against
u32 in the i32 range. -/
theorem c10_signed_unsigned_agree :
    (∀ n : Int, 0 ≤ n → n < 2 ^ 63 →
      I64.seconds n = U64.seconds n.toNat ∧ I64.minutes n = U64.minutes n.toNat ∧
      I64.hours n = U64.hours n.toNat ∧ I64.days n = U64.days n.toNat ∧
      I64.weeks n = U64.weeks n.toNat ∧ I64.milliseconds n = U64.milliseconds n.toNat ∧
      I64.microseconds n = U64.microseconds n.toNat ∧
      I64.nanoseconds n = U64.nanoseconds n.toNat) ∧
    (∀ n : Int, 0 ≤ n → n < 2 ^ 31 →
      I32.seconds n = U32.seconds n.toNat ∧ I32.minutes n = U32.minutes n.toNat ∧
      I32.hours n = U32.hours n.toNat ∧ I32.days n = U32.days n.toNat ∧
      I32.weeks n = U32.weeks n.toNat ∧ I32.milliseconds n = U32.milliseconds n.toNat ∧
      I32.microseconds n = U32.microseconds n.toNat ∧
      I32.nanoseconds n = U32.nanoseconds n.toNat) := by
  constructor
  · intro n h0 _
    have hcond : ¬n < 0 := not_lt.mpr h0
    refine ⟨?_, ?_, ?_, ?_, ?_, ?_, ?_, ?_⟩
    · unfold I64.seconds U64.seconds; rw [if_neg hcond]
    · unfold I64.minutes U64.minutes; rw [if_neg hcond, toString_int_nonneg n h0]
    · unfold I64.hours U64.hours; rw [if_neg hcond, toString_int_nonneg n h0]
    · unfold I64.days U64.days; rw [if_neg hcond, toString_int_nonneg n h0]
    · unfold I64.weeks U64.weeks; rw [if_neg hcond, toString_int_nonneg n h0]
    · unfold I64.milliseconds U64.milliseconds; rw [if_neg hcond]
    · unfold I64.microseconds U64.microseconds; rw [if_neg hcond]
    · unfold I64.nanoseconds U64.nanoseconds; rw [if_neg hcond]
  · intro n h0 _
    have hcond : ¬n < 0 := not_lt.mpr h0
    refine ⟨?_, ?_, ?_, ?_, ?_, ?_, ?_, ?_⟩
    · unfold I32.seconds U32.seconds; rw [if_neg hcond]
    · unfold I32.minutes U32.minutes; rw [if_neg hcond, toString_int_nonneg n h0]
    · unfold I32.hours U32.hours; rw [if_neg hcond, toString_int_nonneg n h0]
    · unfold I32.days U32.days; rw [if_neg hcond, toString_int_nonneg n h0]
    · unfold I32.weeks U32.weeks; rw [if_neg hcond, toString_int_nonneg n h0]
    · unfold I32.milliseconds U32.milliseconds; rw [if_neg hcond]
    · unfold I32.microseconds U32.microseconds; rw [if_neg hcond]
    · unfold I32.nanoseconds U32.nanoseconds; rw [if_neg hcond]

/-- C10 witness: signed and unsigned agreement of the minutes operation at
12 for both widths. -/
theorem c10_signed_unsigned_agree_witness :
    I64.minutes 12 = U64.minutes (12 : Int).toNat ∧
    I32.minutes 12 = U32.minutes (12 : Int).toNat :=
  ⟨(c10_signed_unsigned_agree.1 12 (by decide) (by decide)).2.1,
   (c10_signed_unsigned_agree.2 12 (by decide) (by decide)).2.1⟩
